import Mathlib

/-!
# Verification of the phishing-detection core pipeline

Shallow embedding of the two pure core components of the repository:

* `src/url_features.py` — `parse_url`, `_entropy`, `_contains_ipv4`,
  `extract_features` (lexical/structural URL feature extraction), together
  with the parts of CPython's `urllib.parse` (`urlsplit`, the `hostname`
  property, `parse_qs`/`parse_qsl`/`unquote`) that those functions call;
* `src/heuristic_scorer.py` — `_add_reason`, `score_features` (the
  weighted-rule scoring engine).

Modelling conventions:

* Python `float` is modelled by exact arithmetic: `ℚ` for all scorer values
  (every constant in the scorer is a decimal literal, exactly representable
  in `ℚ`) and `ℝ` for the Shannon-entropy computation (which uses `log2`).
  Python's `round(x, n)` (round-half-to-even on binary doubles) is modelled
  as round-half-up on the exact value; the two differ only on exact decimal
  ties of the binary value, which the inputs treated here never produce.
* Python `str` is modelled by Lean `String`; all string algorithms are
  re-implemented structurally over `List Char` (`String.data`) so that the
  kernel can evaluate them.  Python's Unicode-aware `str.lower`,
  `str.isalnum`, `\d` and `str.isalpha` are modelled by their ASCII
  restrictions, which agree with CPython on all ASCII input.
* Python dictionaries with a fixed documented key set (the feature mapping
  fed to the scorer) are modelled as a structure `SignalMap`; a key that is
  absent from the Python dict is modelled by the structure's default field
  value, which is exactly the default that `features.get(key, default)`
  supplies in the scorer.
* CPython's `urlsplit` raises `ValueError("Invalid IPv6 URL")` when the
  network location contains `[` without `]` (or vice versa); fallible
  parsing is therefore modelled with `Except String`.  The additional
  bracketed-host validation of Python ≥ 3.11 and the NFKC `_checknetloc`
  check (both unreachable for the ASCII inputs treated here) are not
  modelled.
* The scorer iterates over `BRAND_KEYWORDS`, a Python `set` literal, whose
  iteration order is implementation defined.  Following the specification
  (§9), the set is embedded as the list `BRAND_KEYWORDS` in the canonical
  order in which the source literal is written.
-/

namespace Phish

/-! ## Python string primitives (over `List Char`) -/

/-- Characters considered whitespace by Python's `str.strip()`. -/
def pySpace (c : Char) : Bool :=
  c = ' ' || c = '\t' || c = '\n' || c = '\r' || c = '\x0b' || c = '\x0c' ||
  c.val = 0x1c || c.val = 0x1d || c.val = 0x1e || c.val = 0x1f ||
  c.val = 0x85 || c.val = 0xa0 || c.val = 0x1680 ||
  (0x2000 ≤ c.val && c.val ≤ 0x200a) ||
  c.val = 0x2028 || c.val = 0x2029 || c.val = 0x202f || c.val = 0x205f ||
  c.val = 0x3000

/-- Python `s.strip()`: remove leading and trailing whitespace. -/
def stripL (l : List Char) : List Char :=
  ((l.dropWhile pySpace).reverse.dropWhile pySpace).reverse

/-- Python `s.strip()` on `String`. -/
def pyStrip (s : String) : String := ⟨stripL s.data⟩

/-- ASCII lower-casing of one character (Python `str.lower` restricted to
ASCII). -/
def lowerChar (c : Char) : Char :=
  if 'A' ≤ c && c ≤ 'Z' then Char.ofNat (c.toNat + 32) else c

/-- Python `s.lower()` (ASCII fragment). -/
def pyLower (s : String) : String := ⟨s.data.map lowerChar⟩

/-- Does `l` start with `p`?  (Python `s.startswith(p)` / list version.)
When `l` runs out first, the test succeeds only for an exhausted pattern. -/
def startsWithL : List Char → List Char → Bool
  | pc :: pr, sc :: sr => pc = sc && startsWithL pr sr
  | pat, _ => pat.isEmpty

/-- Python `s.startswith(p)`. -/
def pyStartsWith (s p : String) : Bool := startsWithL p.data s.data

/-- Python `s.endswith(p)`. -/
def pyEndsWith (s p : String) : Bool := startsWithL p.data.reverse s.data.reverse

/-- Is `pat` a contiguous substring of `l`?  (Python `pat in s`.) -/
def subL (pat : List Char) : List Char → Bool
  | [] => pat.isEmpty
  | c :: cs => startsWithL pat (c :: cs) || subL pat cs

/-- Python substring containment `pat in s`. -/
def pyIn (pat s : String) : Bool := subL pat.data s.data

/-- Python `c in s` for a single character. -/
def pyInChar (c : Char) (s : String) : Bool := s.data.contains c

/-- Worker for `splitOnL`: `fuel` bounds the recursion (it is always called
with more fuel than the length of the remaining input). -/
def splitGo (sep : List Char) : Nat → List Char → List Char → List (List Char)
  | _, acc, [] => [acc.reverse]
  | 0, acc, rest => [acc.reverse ++ rest]
  | fuel + 1, acc, c :: cs =>
    if startsWithL sep (c :: cs) then
      acc.reverse :: splitGo sep fuel [] ((c :: cs).drop sep.length)
    else
      splitGo sep fuel (c :: acc) cs

/-- Python `s.split(sep)` for a non-empty separator `sep` (left-to-right,
non-overlapping). -/
def splitOnL (sep l : List Char) : List (List Char) :=
  if sep = [] then [l] else splitGo sep (l.length + 1) [] l

/-- Python `s.split(sep)` on `String`. -/
def pySplit (s sep : String) : List String :=
  (splitOnL sep.data s.data).map fun l => ⟨l⟩

/-- Last element of a Python `split` result (`split(...)[-1]`; a split
result is never empty, the default is never used). -/
def lastD (l : List String) : String := l.getLastD ""

/-- Python `s.partition(c)` restricted to what the callers use: the part
before the first `c`, whether `c` occurs, and the part after the first
`c`. -/
def partitionChar (c : Char) (l : List Char) : List Char × Bool × List Char :=
  let pre := l.takeWhile (fun a => a ≠ c)
  let rest := l.dropWhile (fun a => a ≠ c)
  match rest with
  | [] => (pre, false, [])
  | _ :: t => (pre, true, t)

/-- The part of `l` after the last occurrence of `c`; `l` itself if `c` does
not occur (this is the third component of Python `s.rpartition(c)` in both
cases). -/
def afterLastChar (c : Char) (l : List Char) : List Char :=
  (l.reverse.takeWhile (fun a => a ≠ c)).reverse

/-- Python `s.split(c, 1)` when `c` is known to occur: the part before the
first `c` and the part after it.  If `c` does not occur, returns `(l, [])`
(the callers guard with a containment test). -/
def splitFirstChar (c : Char) (l : List Char) : List Char × List Char :=
  let p := partitionChar c l
  (p.1, p.2.2)

/-! ## CPython `urllib.parse.urlsplit` and the `hostname` accessor -/

/-- Characters allowed in a URL scheme (CPython `scheme_chars`). -/
def schemeChar (c : Char) : Bool :=
  c.isAlpha || c.isDigit || c = '+' || c = '-' || c = '.'

/-- Result of CPython `urlsplit` (named tuple `SplitResult`). -/
structure SplitRes where
  scheme : String
  netloc : String
  path : String
  query : String
  fragment : String
deriving DecidableEq, Repr

/-- CPython `urlsplit` step 1: strip leading/trailing C0-control-or-space
characters and remove every tab, carriage return and line feed (WHATWG
sanitisation, bpo-43882 / bpo-43883). -/
def whatwgClean (l : List Char) : List Char :=
  let isC0 : Char → Bool := fun c => c.val ≤ 0x20
  (((l.dropWhile isC0).reverse.dropWhile isC0).reverse).filter
    fun c => c ≠ '\t' && c ≠ '\r' && c ≠ '\n'

/-- CPython `urlsplit` scheme detection: if the first `:` is preceded by a
non-empty run of scheme characters starting with an ASCII letter, split off
the (lower-cased) scheme. -/
def splitScheme (l : List Char) : List Char × List Char :=
  match l.findIdx? (· = ':') with
  | none => ([], l)
  | some i =>
    if 0 < i ∧ (l.headD ' ').isAlpha ∧ (l.take i).all schemeChar then
      ((l.take i).map lowerChar, l.drop (i + 1))
    else
      ([], l)

/-- CPython `_splitnetloc`: the network location runs up to the first `/`,
`?` or `#` after the leading `//`; the remainder (including the delimiter)
stays in the URL. -/
def splitNetloc (l : List Char) : List Char × List Char :=
  let rest := l.drop 2
  (rest.takeWhile (fun c => c ≠ '/' && c ≠ '?' && c ≠ '#'),
   rest.dropWhile (fun c => c ≠ '/' && c ≠ '?' && c ≠ '#'))

/-- CPython `urlsplit` (`allow_fragments=True`).  Raises
`ValueError("Invalid IPv6 URL")` — modelled as `Except.error` — when the
network location contains `[` without `]` or `]` without `[`. -/
def pyUrlsplit (url : String) : Except String SplitRes :=
  let u0 := whatwgClean url.data
  let (scheme, u1) := splitScheme u0
  if startsWithL ['/', '/'] u1 then
    let (netloc, u2) := splitNetloc u1
    if (netloc.contains '[' && !netloc.contains ']') ||
       (netloc.contains ']' && !netloc.contains '[') then
      .error "Invalid IPv6 URL"
    else
      let (u3, fragment) :=
        if u2.contains '#' then splitFirstChar '#' u2 else (u2, [])
      let (u4, query) :=
        if u3.contains '?' then splitFirstChar '?' u3 else (u3, [])
      .ok { scheme := ⟨scheme⟩, netloc := ⟨netloc⟩, path := ⟨u4⟩,
            query := ⟨query⟩, fragment := ⟨fragment⟩ }
  else
    let (u3, fragment) :=
      if u1.contains '#' then splitFirstChar '#' u1 else (u1, [])
    let (u4, query) :=
      if u3.contains '?' then splitFirstChar '?' u3 else (u3, [])
    .ok { scheme := ⟨scheme⟩, netloc := "", path := ⟨u4⟩,
          query := ⟨query⟩, fragment := ⟨fragment⟩ }

/-- CPython `SplitResult.hostname`: drop the userinfo (everything up to the
last `@`), then take the bracketed host if `[` is present and otherwise the
part before the first `:`; lower-case the result.  `None` (empty hostname)
is mapped to `""`, matching `parsed.hostname or ""` in `parse_url`. -/
def pyHostname (netloc : String) : String :=
  let hostinfo := afterLastChar '@' netloc.data
  let p := partitionChar '[' hostinfo
  let host :=
    if p.2.1 then (partitionChar ']' p.2.2).1
    else (partitionChar ':' hostinfo).1
  ⟨host.map lowerChar⟩

/-! ## CPython `parse_qs` / `parse_qsl` / `unquote` -/

/-- Value of one hexadecimal digit (CPython `_hextobyte` accepts
`0123456789abcdefABCDEF`; code points 48–57, 97–102 and 65–70). -/
def hexVal (c : Char) : Option Nat :=
  let n := c.toNat
  if 48 ≤ n && n ≤ 57 then some (n - 48)
  else if 97 ≤ n && n ≤ 102 then some (n - 87)
  else if 65 ≤ n && n ≤ 70 then some (n - 55)
  else none

/-- Is this byte a UTF-8 continuation byte? -/
def isCont (b : Nat) : Bool := 0x80 ≤ b && b ≤ 0xbf

/-- The Unicode replacement character U+FFFD. -/
def repl : Char := Char.ofNat 0xfffd

/-- Worker for `utf8Decode`; every recursive call consumes at least one
byte, so `fuel` bounds the recursion (it is always called with at least as
much fuel as there are bytes). -/
def utf8Go : Nat → List Nat → List Char
  | _, [] => []
  | 0, bs => bs.map fun _ => repl
  | fuel + 1, b :: bs =>
    if b < 0x80 then Char.ofNat b :: utf8Go fuel bs
    else if 0xc2 ≤ b && b ≤ 0xdf then
      match bs with
      | b1 :: bs1 =>
        if isCont b1 then Char.ofNat ((b - 0xc0) * 64 + (b1 - 0x80)) :: utf8Go fuel bs1
        else repl :: utf8Go fuel bs
      | [] => [repl]
    else if 0xe0 ≤ b && b ≤ 0xef then
      match bs with
      | b1 :: bs1 =>
        if (b = 0xe0 && 0xa0 ≤ b1 && b1 ≤ 0xbf) ||
           (b = 0xed && 0x80 ≤ b1 && b1 ≤ 0x9f) ||
           (b ≠ 0xe0 && b ≠ 0xed && isCont b1) then
          match bs1 with
          | b2 :: bs2 =>
            if isCont b2 then
              Char.ofNat ((b - 0xe0) * 4096 + (b1 - 0x80) * 64 + (b2 - 0x80)) :: utf8Go fuel bs2
            else repl :: utf8Go fuel bs1
          | [] => [repl]
        else repl :: utf8Go fuel bs
      | [] => [repl]
    else if 0xf0 ≤ b && b ≤ 0xf4 then
      match bs with
      | b1 :: bs1 =>
        if (b = 0xf0 && 0x90 ≤ b1 && b1 ≤ 0xbf) ||
           (b = 0xf4 && 0x80 ≤ b1 && b1 ≤ 0x8f) ||
           (b ≠ 0xf0 && b ≠ 0xf4 && isCont b1) then
          match bs1 with
          | b2 :: bs2 =>
            if isCont b2 then
              match bs2 with
              | b3 :: bs3 =>
                if isCont b3 then
                  Char.ofNat ((b - 0xf0) * 262144 + (b1 - 0x80) * 4096 +
                    (b2 - 0x80) * 64 + (b3 - 0x80)) :: utf8Go fuel bs3
                else repl :: utf8Go fuel bs2
              | [] => [repl]
            else repl :: utf8Go fuel bs1
          | [] => [repl]
        else repl :: utf8Go fuel bs
      | [] => [repl]
    else repl :: utf8Go fuel bs

/-- UTF-8 decoding with `errors='replace'` (Python `bytes.decode`): each
maximal invalid subpart is replaced by one U+FFFD. -/
def utf8Decode (bs : List Nat) : List Char := utf8Go bs.length bs

/-- Worker for `pyUnquote`: accumulate the bytes of the current ASCII run
(literal ASCII characters and decoded `%HH` escapes) in `buf` (reversed);
non-ASCII characters flush the buffer and pass through unchanged, exactly
as CPython's `unquote` splits the input into ASCII runs and decodes each
run's bytes together. -/
def unquoteGo : List Char → List Nat → List Char
  | [], buf => utf8Decode buf.reverse
  | '%' :: a :: b :: rest, buf =>
    match hexVal a, hexVal b with
    | some ha, some hb => unquoteGo rest ((ha * 16 + hb) :: buf)
    | _, _ => unquoteGo (a :: b :: rest) (37 :: buf)
  | '%' :: rest, buf => unquoteGo rest (37 :: buf)
  | c :: rest, buf =>
    if c.toNat < 0x80 then unquoteGo rest (c.toNat :: buf)
    else utf8Decode buf.reverse ++ c :: unquoteGo rest []

/-- CPython `urllib.parse.unquote` with the default UTF-8 encoding and
`errors='replace'`. -/
def pyUnquote (s : String) : String :=
  if s.data.contains '%' then ⟨unquoteGo s.data []⟩ else s

/-- Name/value decoding used by `parse_qsl`: replace `+` by a space, then
percent-decode. -/
def qslDecode (l : List Char) : String :=
  pyUnquote ⟨l.map fun c => if c = '+' then ' ' else c⟩

/-- CPython `parse_qsl(qs)` with default arguments: split on `&`, skip empty
chunks, skip chunks without `=`, skip pairs whose value is empty
(`keep_blank_values=False`), and decode names and values. -/
def pyParseQsl (qs : String) : List (String × String) :=
  if qs = "" then []
  else
    (splitOnL ['&'] qs.data).foldr
      (fun chunk acc =>
        if chunk = [] then acc
        else if chunk.contains '=' then
          let (n, v) := splitFirstChar '=' chunk
          if v = [] then acc else (qslDecode n, qslDecode v) :: acc
        else acc)
      []

/-- One step of the dictionary construction in CPython `parse_qs`: append
the value to an existing key's list, or add a new key at the end. -/
def addPair (acc : List (String × List String)) (p : String × String) :
    List (String × List String) :=
  if p.1 ∈ acc.map Prod.fst then
    acc.map fun e => if e.1 = p.1 then (e.1, e.2 ++ [p.2]) else e
  else
    acc ++ [(p.1, [p.2])]

/-- CPython `parse_qs(qs)`: group the `parse_qsl` pairs into a dictionary
(association list in key-insertion order). -/
def pyParseQs (qs : String) : List (String × List String) :=
  (pyParseQsl qs).foldl addPair []

/-! ## `url_features.py` -/

/-- The character-frequency dictionary built by `_entropy` (`freq`), as an
association list in first-occurrence order with the final counts. -/
def charCounts (l : List Char) : List (Char × Nat) :=
  l.foldl
    (fun acc ch =>
      if ch ∈ acc.map Prod.fst then
        acc.map fun e => if e.1 = ch then (e.1, e.2 + 1) else e
      else acc ++ [(ch, 1)])
    []

/-- `_entropy`: Shannon entropy of a string,
`-Σ (v/n) · log2 (v/n)` over the character frequencies `v`; `0.0` for the
empty string. -/
noncomputable def shannon (l : List Char) : ℝ :=
  let n : ℝ := l.length
  let ent : ℝ := -(((charCounts l).map (fun kv => (kv.2 / n) * Real.logb 2 (kv.2 / n))).sum)
  if l = [] then 0 else ent

/-- Python `round(x, 4)` on the exact value (round half up; see the header
note on rounding). -/
noncomputable def round4R (x : ℝ) : ℚ := ((round (x * 10000) : ℤ) : ℚ) / 10000

/-- Python `round(x, 3)` on exact rationals (round half up; see the header
note on rounding). -/
def round3 (x : ℚ) : ℚ := ((round (x * 1000) : ℤ) : ℚ) / 1000

/-- `_contains_ipv4`: `re.fullmatch(r"\d{1,3}(\.\d{1,3}){3}", host)` — four
groups of one to three digits separated by dots. -/
def pyIsIPv4 (host : String) : Bool :=
  let parts := splitOnL ['.'] host.data
  parts.length = 4 &&
    parts.all fun p => 1 ≤ p.length && p.length ≤ 3 && p.all Char.isDigit

/-- Result of `parse_url`: the dictionary
`{normalized, path, query, host, scheme}` (the raw `parsed` entry is only
ever consumed through these fields). -/
structure UrlParts where
  normalized : String
  path : String
  query : String
  host : String
  scheme : String
deriving DecidableEq, Repr

/-- `parse_url` from `url_features.py`: strip whitespace, prepend `http://`
when no `http(s)://` prefix is present, then parse with `urlsplit`; the
error raised by `urlsplit` propagates. -/
def parse_url (url : String) : Except String UrlParts :=
  let u1 := pyStrip url
  let u2 :=
    if !pyStartsWith u1 "http://" && !pyStartsWith u1 "https://" then
      "http://" ++ u1
    else u1
  match pyUrlsplit u2 with
  | .error e => .error e
  | .ok p =>
    .ok { normalized := u2, path := p.path, query := p.query,
          host := pyHostname p.netloc, scheme := p.scheme }

/-- `SUSPECT_KEYWORDS` from `url_features.py`. -/
def SUSPECT_KEYWORDS : List String :=
  ["login", "verify", "secure", "account", "update", "confirm",
   "bank", "payment", "billing", "card", "verify-account"]

/-- The suspicious top-level domains `("zip", "xyz", "top", "gq", "tk", "ml")`
(used both in `extract_features` and in the TLD boost of
`score_features`). -/
def SUSPICIOUS_TLDS : List String := ["zip", "xyz", "top", "gq", "tk", "ml"]

/-- The merged signal mapping.  Fields that `extract_features` produces are
always set by it; the remaining fields are the collaborator-supplied keys
read by `score_features` via `features.get(key, default)`, whose defaults
are the field defaults below (an absent dictionary key is modelled by the
default value). -/
structure SignalMap where
  url : String := ""
  scheme : String := ""
  host : String := ""
  tld : String := ""
  suspicious_tld : Bool := false
  has_ip : Bool := false
  url_length : Nat := 0
  path_length : Nat := 0
  param_count : Nat := 0
  has_at : Bool := false
  has_double_slash : Bool := false
  suspect_keyword_count : Nat := 0
  keywords_found : List String := []
  host_entropy : ℚ := 0
  path_entropy : ℚ := 0
  dot_count_in_host : Nat := 0
  special_char_count : Nat := 0
  redirect_count : Nat := 0
  external_form_action : Bool := false
  external_domain_count : Nat := 0
  external_script_count : Nat := 0
  iframe_count : Nat := 0
  meta_refresh : Bool := false
  suspicious_js_keywords : List String := []
  word_count : Nat := 0
  has_password_input : Bool := false
  has_card_inputs : Bool := false
  has_login_form : Bool := false
deriving DecidableEq, Repr

/-- The characters exempted from `special_char_count`
(`(":", "/", ".", "?", "&", "=", "-", "_")`). -/
def allowedSpecial (c : Char) : Bool :=
  c = ':' || c = '/' || c = '.' || c = '?' || c = '&' || c = '=' ||
  c = '-' || c = '_'

/-- `extract_features` from `url_features.py`.  Returns the feature
dictionary; collaborator keys keep their defaults.  The `ValueError` that
`urlsplit` can raise propagates as `Except.error`. -/
noncomputable def extract_features (url : String) : Except String SignalMap :=
  (parse_url url).map fun p =>
    let host := p.host
    let path := p.path
    let url_lower := pyLower p.normalized
    let tldPair : String × Bool :=
      if host ≠ "" ∧ pyInChar '.' host then
        let t := pyLower (lastD (pySplit host "."))
        (t, t ∈ SUSPICIOUS_TLDS)
      else ("", false)
    let keywords_found := SUSPECT_KEYWORDS.filter fun kw => pyIn kw url_lower
    { url := p.normalized
      scheme := p.scheme
      host := host
      tld := tldPair.1
      suspicious_tld := tldPair.2
      has_ip := pyIsIPv4 host
      url_length := p.normalized.data.length
      path_length := path.data.length
      param_count := (pyParseQs p.query).length
      has_at := pyIn "@" p.normalized
      has_double_slash := pyIn "//" (lastD (pySplit p.normalized "://"))
      suspect_keyword_count := keywords_found.length
      keywords_found := keywords_found
      host_entropy := round4R (shannon host.data)
      path_entropy := round4R (shannon path.data)
      dot_count_in_host := host.data.count '.'
      special_char_count :=
        (p.normalized.data.filter fun ch =>
          !ch.isAlphanum && !allowedSpecial ch).length }

/-! ## `heuristic_scorer.py` -/

/-- `CATEGORIES` from `heuristic_scorer.py`. -/
def CATEGORIES : List String :=
  ["credential_theft", "card_theft", "info_gathering", "malware"]

/-- `BRAND_KEYWORDS` from `heuristic_scorer.py`: a Python `set` literal,
embedded as a list in the canonical order in which the literal is written
(the order the specification §9 declares canonical). -/
def BRAND_KEYWORDS : List String :=
  ["paypal", "google", "microsoft", "bank", "visa", "mastercard", "apple",
   "facebook", "instagram"]

/-- The `cat_scores` dictionary, keyed by `CATEGORIES`. -/
structure CatScores where
  credential_theft : ℚ := 0
  card_theft : ℚ := 0
  info_gathering : ℚ := 0
  malware : ℚ := 0
deriving DecidableEq, Repr

/-- `_add_reason`: append `r` unless it is already present. -/
def addReason (reasons : List String) (r : String) : List String :=
  if r ∈ reasons then reasons else reasons ++ [r]

/-- The mutable state of `score_features` while the rules run. -/
structure ScoreState where
  score : ℚ := 0
  reasons : List String := []
  cats : CatScores := {}
deriving DecidableEq, Repr

/-- One guarded rule of `score_features`: when `c` holds, add `d` to the
score, add the reason via `_add_reason`, and add the four category deltas;
otherwise leave the state unchanged. -/
def applyRule (c : Prop) [Decidable c] (d : ℚ) (r : String)
    (dcred dcard dinfo dmal : ℚ) (st : ScoreState) : ScoreState :=
  if c then
    { score := st.score + d
      reasons := addReason st.reasons r
      cats :=
        { credential_theft := st.cats.credential_theft + dcred
          card_theft := st.cats.card_theft + dcard
          info_gathering := st.cats.info_gathering + dinfo
          malware := st.cats.malware + dmal } }
  else st

/-- The `for brand in BRAND_KEYWORDS` loop: the first brand (in list order)
that is a substring of `host` while `host` does not start with `brand + "."`
is returned (the loop `break`s there); a brand contained in `host` but with
the `brand + "."` prefix does not stop the scan. -/
def brandScan (host : String) : List String → Option String
  | [] => none
  | b :: bs =>
    if pyIn b host then
      if pyStartsWith host (b ++ ".") then brandScan host bs
      else some b
    else brandScan host bs

/-- The reason string of the brand-impersonation rule. -/
def brandReason (b : String) : String :=
  "Host contains brand name '" ++ b ++ "' (possible impersonation)"

/-- The effect of the brand-impersonation loop on the state: the penalty
(score +0.40, `credential_theft` +1.0, one reason) is applied for the brand
the scan stops at, or not at all. -/
def brandStep (host : String) (st : ScoreState) : ScoreState :=
  match brandScan host BRAND_KEYWORDS with
  | some b =>
    { score := st.score + 0.40
      reasons := addReason st.reasons (brandReason b)
      cats := { st.cats with credential_theft := st.cats.credential_theft + 1.0 } }
  | none => st

/-- The suspicious-TLD category boost (no reason, no score change). -/
def tldBoost (tld : String) (st : ScoreState) : ScoreState :=
  if tld ∈ SUSPICIOUS_TLDS then
    { st with cats :=
        { st.cats with
          credential_theft := st.cats.credential_theft + 0.20
          malware := st.cats.malware + 0.12 } }
  else st

/-- `sorted(kw & S)` for the keyword rules: `sortedS` is the fixed target
set written in sorted order, and the result keeps those of its elements
that occur among the (lower-cased) found keywords. -/
def kwInter (kws : List String) (sortedS : List String) : List String :=
  sortedS.filter fun w => w ∈ kws

/-- Python `", ".join(l)`. -/
def joinComma : List String → String
  | [] => ""
  | [s] => s
  | s :: rest => s ++ ", " ++ joinComma rest

/-- The whole rule pipeline of `score_features`, in source order, producing
the state that the post-processing consumes. -/
def rulesState (m : SignalMap) : ScoreState :=
  let url := pyLower m.url
  let host := pyLower m.host
  let kws := m.keywords_found.map pyLower
  let st0 : ScoreState := {}
  -- base signals
  let st1 := applyRule (m.suspicious_tld = true) 0.22
    "Suspicious top-level domain" 0 0 0 0 st0
  let st2 := applyRule (m.has_ip = true) 0.30
    "URL uses an IP address instead of domain" 0 0 0 0 st1
  let st3 := applyRule (m.url_length > 80) 0.12
    "Unusually long URL" 0 0 0 0 st2
  let st4 := applyRule (m.special_char_count > 5) 0.10
    "Many special characters in URL" 0 0 0 0 st3
  let st5 := applyRule (m.host_entropy ≠ 0 ∧ m.host_entropy > 3.2) 0.09
    "High entropy in host (looks random/auto-generated)" 0 0 0 0 st4
  let st6 := applyRule (m.path_entropy ≠ 0 ∧ m.path_entropy > 4.0) 0.06
    "High entropy in path (suspicious)" 0 0 0 0 st5
  -- HTML form signals
  let st7 := applyRule (m.has_password_input = true) 0.35
    "Page contains password input (login form detected)" 1.2 0 0 0 st6
  let st8 := applyRule (m.has_card_inputs = true) 0.45
    "Page contains card-related input fields" 0 1.4 0 0 st7
  let st9 := applyRule (m.external_form_action = true) 0.25
    "Form submits to a different domain" 0.8 0 0 0 st8
  -- keyword signals
  let st10 := applyRule (kwInter kws ["account", "login", "secure", "verify"] ≠ []) 0.30
    ("Suspicious keywords in URL: " ++
      joinComma (kwInter kws ["account", "login", "secure", "verify"]))
    1.0 0 0 0 st9
  let st11 := applyRule (kwInter kws ["billing", "card", "payment"] ≠ []) 0.30
    ("Payment/card-related keywords: " ++
      joinComma (kwInter kws ["billing", "card", "payment"]))
    0 1.0 0 0 st10
  let st12 := applyRule (kwInter kws ["claim", "free", "survey"] ≠ []) 0.08
    "Promotional/offer keywords (possible info harvesting)" 0 0 0.6 0 st11
  let st13 := applyRule
    (kwInter kws ["download", "setup"] ≠ [] ∨
      (pyEndsWith url ".exe" || pyEndsWith url ".zip" ||
       pyEndsWith url ".scr" || pyEndsWith url ".msi") = true) 0.45
    "URL links to downloadable executable or archive" 0 0 0 1.2 st12
  -- brand impersonation
  let st14 := brandStep host st13
  -- structure signals
  let st15 := applyRule (m.param_count ≥ 5) 0.06
    "Many query parameters in URL" 0 0 0 0 st14
  let st16 := applyRule (m.has_double_slash = true) 0.05
    "Unusual double-slash in path" 0 0 0 0 st15
  let st17 := applyRule (m.redirect_count ≥ 3) 0.10
    "Multiple redirects before reaching content" 0 0 0 0 st16
  let st18 := applyRule (m.meta_refresh = true) 0.12
    "Meta refresh redirect detected" 0 0 0 0 st17
  let st19 := applyRule (m.iframe_count ≥ 2) 0.10
    "Page contains multiple iframes" 0 0 0 0 st18
  let st20 := applyRule (m.external_domain_count ≥ 5) 0.08
    "Page loads content from many external domains" 0 0 0 0 st19
  let st21 := applyRule (m.external_script_count ≥ 3) 0.08
    "Page loads several external scripts" 0 0 0 0 st20
  let st22 := applyRule (m.suspicious_js_keywords ≠ []) 0.18
    "Suspicious JavaScript patterns detected" 0 0 0 0.6 st21
  let st23 := applyRule
    (m.word_count ≠ 0 ∧ m.word_count < 80 ∧ m.has_login_form = true) 0.06
    "Sparse page text with login form" 0 0 0 0 st22
  -- suspicious TLD boosts
  let st24 := tldBoost m.tld st23
  -- joint indicators
  applyRule (st24.cats.credential_theft > 0 ∧ st24.cats.card_theft > 0) 0.10
    "Indicators for both credential and card theft" 0 0 0 0 st24

/-- `max(0.0, min(x, 1.0))`. -/
def clamp01 (x : ℚ) : ℚ := max 0 (min x 1)

/-- `risk` from `final_score`. -/
def riskOf (f : ℚ) : String :=
  if f ≥ 0.7 then "high" else if f ≥ 0.4 then "medium" else "low"

/-- The verdict dictionary returned by `score_features`. -/
structure Verdict where
  risk : String
  score : ℚ
  predicted_categories : List String
  reasons : List String
deriving DecidableEq, Repr

/-- The post-processing tail of `score_features` (from `# clamp base score`
onwards): clamp the base score, normalise the category accumulators
(`round(max(0, min(v / 2, 1)), 3)` in `CATEGORIES` order), predict the
categories scoring at least 0.5 with the `credential_theft` fallback, blend
`0.65 · base + 0.35 · max(scaled)`, clamp and round, and derive the risk
tier. -/
def postVerdict (st : ScoreState) : Verdict :=
  let score := clamp01 st.score
  let s1 := round3 (clamp01 (st.cats.credential_theft / 2))
  let s2 := round3 (clamp01 (st.cats.card_theft / 2))
  let s3 := round3 (clamp01 (st.cats.info_gathering / 2))
  let s4 := round3 (clamp01 (st.cats.malware / 2))
  let scaledItems : List (String × ℚ) :=
    [("credential_theft", s1), ("card_theft", s2),
     ("info_gathering", s3), ("malware", s4)]
  let predicted0 := (scaledItems.filter fun p => p.2 ≥ 0.5).map Prod.fst
  let predicted :=
    if predicted0 = [] ∧ score ≥ 0.65 then ["credential_theft"] else predicted0
  let reasons :=
    if predicted0 = [] ∧ score ≥ 0.65 then
      addReason st.reasons
        "High overall risk without clear category: fallback to credential_theft"
    else st.reasons
  let maxScaled := max (max (max s1 s2) s3) s4
  let blended := score * 0.65 + maxScaled * 0.35
  let final_score := round3 (clamp01 blended)
  { risk := riskOf final_score
    score := final_score
    predicted_categories := predicted
    reasons := reasons }

/-- `score_features` from `heuristic_scorer.py`: the rule pipeline
(`rulesState`) followed by the post-processing (`postVerdict`); the Python
function is the sequential composition of exactly these two halves. -/
def score_features (m : SignalMap) : Verdict := postVerdict (rulesState m)

/-! ## Concrete inputs used by the claims -/

/-- The scenario URL of claim C1. -/
def C1url : String := "paypal.com.secure-account-update.xyz/login"

/-- The feature map that `extract_features` produces for `C1url` (collaborator
fields keep their defaults, i.e. the keys are absent). -/
def C1map : SignalMap :=
  { url := "http://paypal.com.secure-account-update.xyz/login"
    scheme := "http"
    host := "paypal.com.secure-account-update.xyz"
    tld := "xyz"
    suspicious_tld := true
    has_ip := false
    url_length := 49
    path_length := 6
    param_count := 0
    has_at := false
    has_double_slash := false
    suspect_keyword_count := 4
    keywords_found := ["login", "secure", "account", "update"]
    host_entropy := 39749 / 10000
    path_entropy := 25850 / 10000
    dot_count_in_host := 3
    special_char_count := 0 }

/-- A signal map whose verdict is high-risk (used to witness C9). -/
def C9map : SignalMap :=
  { has_ip := true, has_password_input := true, has_card_inputs := true }

/-- The state the rule pipeline reaches on `C9map` (score
0.30 + 0.35 + 0.45 + 0.10). -/
def c9st : ScoreState :=
  { score := 1.20
    reasons := ["URL uses an IP address instead of domain",
      "Page contains password input (login form detected)",
      "Page contains card-related input fields",
      "Indicators for both credential and card theft"]
    cats := { credential_theft := 1.2, card_theft := 1.4, info_gathering := 0,
              malware := 0 } }

/-- The state the rule pipeline reaches on `C1map` (score
0.22 + 0.09 + 0.30; `credential_theft` 1.0 + 0.20 from the TLD boost). -/
def c1st : ScoreState :=
  { score := 0.61
    reasons := ["Suspicious top-level domain",
      "High entropy in host (looks random/auto-generated)",
      "Suspicious keywords in URL: account, login, secure"]
    cats := { credential_theft := 1.2, card_theft := 0, info_gathering := 0,
              malware := 0.12 } }

/-- The verdict `score_features` returns on `C1map`. -/
def c1verdict : Verdict :=
  { risk := "medium"
    score := 0.607
    predicted_categories := ["credential_theft"]
    reasons := ["Suspicious top-level domain",
      "High entropy in host (looks random/auto-generated)",
      "Suspicious keywords in URL: account, login, secure"] }

/-- Python `sep.join(l)`. -/
def joinWith (sep : String) : List String → String
  | [] => ""
  | [s] => s
  | s :: rest => s ++ sep ++ joinWith sep rest

/-- Claim-side reading of C5 ("the part following the first `://`"): the
portion of `u` after the *first* occurrence of `://` (the code instead uses
`split("://")[-1]`, the portion after the *last* occurrence). -/
def afterFirstMarker (u : String) : String :=
  joinWith "://" (pySplit u "://").tail

/-- Claim-side reading of C4: the distinct query-parameter names present in
the query string, counting every parameter name whether or not it has a
non-empty value (a bare chunk without `=` counts with its whole text as the
name, as `parse_qsl(..., keep_blank_values=True)` would read it). -/
def claimedParamNames (qs : String) : List String :=
  (((splitOnL ['&'] qs.data).filter (fun chunk => chunk ≠ [])).map
    (fun chunk => qslDecode (splitFirstChar '=' chunk).1)).dedup

deriving instance DecidableEq for Except

/-! ## Generic lemmas about the scorer -/

theorem clamp01_nonneg (x : ℚ) : 0 ≤ clamp01 x := le_max_left 0 _

theorem clamp01_le_one (x : ℚ) : clamp01 x ≤ 1 :=
  max_le (by norm_num) (min_le_right x 1)

theorem round3_nonneg {x : ℚ} (h : 0 ≤ x) : 0 ≤ round3 x := by
  unfold round3
  have h1 : (0 : ℤ) ≤ round (x * 1000) := by
    rw [round_eq]
    exact Int.le_floor.mpr (by push_cast; linarith)
  positivity

theorem round3_le_one {x : ℚ} (h : x ≤ 1) : round3 x ≤ 1 := by
  unfold round3
  have h1 : round (x * 1000) < 1001 := by
    rw [round_eq]
    exact Int.floor_lt.mpr (by push_cast; linarith)
  have h2 : ((round (x * 1000) : ℤ) : ℚ) ≤ 1000 := by
    exact_mod_cast Int.lt_add_one_iff.mp h1
  linarith

theorem round3_lt_high {x : ℚ} (h : x < 5975 / 10000) : round3 x < 0.7 := by
  unfold round3
  have h1 : round (x * 1000) < 598 := by
    rw [round_eq]
    exact Int.floor_lt.mpr (by push_cast; linarith)
  have h2 : ((round (x * 1000) : ℤ) : ℚ) ≤ 597 := by
    exact_mod_cast Int.lt_add_one_iff.mp h1
  norm_num
  linarith

theorem addReason_nodup (rs : List String) (r : String) (h : rs.Nodup) :
    (addReason rs r).Nodup := by
  unfold addReason
  split
  · exact h
  · next hr => simp [List.nodup_append, h, hr]

theorem applyRule_nodup {c : Prop} [Decidable c] {d : ℚ} {r : String}
    {dcred dcard dinfo dmal : ℚ} {st : ScoreState} (h : st.reasons.Nodup) :
    ((applyRule c d r dcred dcard dinfo dmal st).reasons).Nodup := by
  unfold applyRule
  split
  · exact addReason_nodup _ _ h
  · exact h

theorem brandStep_nodup {host : String} {st : ScoreState}
    (h : st.reasons.Nodup) : ((brandStep host st).reasons).Nodup := by
  unfold brandStep
  split
  · exact addReason_nodup _ _ h
  · exact h

theorem tldBoost_nodup {tld : String} {st : ScoreState}
    (h : st.reasons.Nodup) : ((tldBoost tld st).reasons).Nodup := by
  unfold tldBoost
  split
  · exact h
  · exact h

theorem rulesState_nodup (m : SignalMap) : ((rulesState m).reasons).Nodup := by
  simp only [rulesState]
  repeat
    first
    | exact List.nodup_nil
    | apply applyRule_nodup
    | apply brandStep_nodup
    | apply tldBoost_nodup

theorem applyRule_neg (c : Prop) [Decidable c] (h : ¬c) (d : ℚ) (r : String)
    (a b e f : ℚ) (st : ScoreState) : applyRule c d r a b e f st = st := if_neg h

theorem applyRule_pos (c : Prop) [Decidable c] (h : c) (d : ℚ) (r : String)
    (a b e f : ℚ) (st : ScoreState) :
    applyRule c d r a b e f st =
      { score := st.score + d
        reasons := addReason st.reasons r
        cats :=
          { credential_theft := st.cats.credential_theft + a
            card_theft := st.cats.card_theft + b
            info_gathering := st.cats.info_gathering + e
            malware := st.cats.malware + f } } := if_pos h

theorem brandStep_none (host : String)
    (h : brandScan host BRAND_KEYWORDS = none) (st : ScoreState) :
    brandStep host st = st := by
  unfold brandStep
  rw [h]

theorem tldBoost_neg (t : String) (h : t ∉ SUSPICIOUS_TLDS) (st : ScoreState) :
    tldBoost t st = st := if_neg h

theorem tldBoost_pos (t : String) (h : t ∈ SUSPICIOUS_TLDS) (st : ScoreState) :
    tldBoost t st =
      { st with cats :=
          { st.cats with
            credential_theft := st.cats.credential_theft + 0.20
            malware := st.cats.malware + 0.12 } } := if_pos h

theorem rulesState_C9 : rulesState C9map = c9st := by
  simp only [rulesState]
  rw [applyRule_neg (C9map.suspicious_tld = true) (by decide)]
  rw [applyRule_pos (C9map.has_ip = true) (by decide)]
  rw [applyRule_neg (C9map.url_length > 80) (by decide)]
  rw [applyRule_neg (C9map.special_char_count > 5) (by decide)]
  rw [applyRule_neg (C9map.host_entropy ≠ 0 ∧ C9map.host_entropy > 3.2) (by simp [C9map])]
  rw [applyRule_neg (C9map.path_entropy ≠ 0 ∧ C9map.path_entropy > 4.0) (by simp [C9map])]
  rw [applyRule_pos (C9map.has_password_input = true) (by decide)]
  rw [applyRule_pos (C9map.has_card_inputs = true) (by decide)]
  rw [applyRule_neg (C9map.external_form_action = true) (by decide)]
  rw [applyRule_neg (kwInter (List.map pyLower C9map.keywords_found)
    ["account", "login", "secure", "verify"] ≠ []) (by decide)]
  rw [applyRule_neg (kwInter (List.map pyLower C9map.keywords_found)
    ["billing", "card", "payment"] ≠ []) (by decide)]
  rw [applyRule_neg (kwInter (List.map pyLower C9map.keywords_found)
    ["claim", "free", "survey"] ≠ []) (by decide)]
  rw [applyRule_neg (kwInter (List.map pyLower C9map.keywords_found)
    ["download", "setup"] ≠ [] ∨
    (pyEndsWith (pyLower C9map.url) ".exe" || pyEndsWith (pyLower C9map.url) ".zip" ||
     pyEndsWith (pyLower C9map.url) ".scr" || pyEndsWith (pyLower C9map.url) ".msi") = true)
    (by decide)]
  rw [brandStep_none (pyLower C9map.host) (by decide)]
  rw [applyRule_neg (C9map.param_count ≥ 5) (by decide)]
  rw [applyRule_neg (C9map.has_double_slash = true) (by decide)]
  rw [applyRule_neg (C9map.redirect_count ≥ 3) (by decide)]
  rw [applyRule_neg (C9map.meta_refresh = true) (by decide)]
  rw [applyRule_neg (C9map.iframe_count ≥ 2) (by decide)]
  rw [applyRule_neg (C9map.external_domain_count ≥ 5) (by decide)]
  rw [applyRule_neg (C9map.external_script_count ≥ 3) (by decide)]
  rw [applyRule_neg (C9map.suspicious_js_keywords ≠ []) (by decide)]
  rw [applyRule_neg (C9map.word_count ≠ 0 ∧ C9map.word_count < 80 ∧
    C9map.has_login_form = true) (by decide)]
  rw [tldBoost_neg C9map.tld (by decide)]
  norm_num [applyRule, addReason, c9st]
  decide

theorem risk_C9 : (score_features C9map).risk = "high" := by
  rw [score_features, rulesState_C9]
  simp only [postVerdict, c9st]
  norm_num [clamp01, round3, round_eq, riskOf, min_def, max_def, addReason]

theorem postVerdict_score_shape (st : ScoreState) :
    ∃ x, (postVerdict st).score = round3 (clamp01 x) := ⟨_, rfl⟩

theorem postVerdict_risk_shape (st : ScoreState) :
    (postVerdict st).risk = riskOf ((postVerdict st).score) := rfl

/-! ## Claim theorems -/

/-- Claim C2 (status: code_bug): the claim states that `extract_features`
never raises for any input string.  It does: on the input `"["`,
normalisation yields `"http://["` and CPython's `urlsplit` raises
`ValueError("Invalid IPv6 URL")` (the network location contains `[` without
`]`), so `extract_features` propagates the exception instead of degrading
to empty host/path. -/
theorem extract_features_raises_on_bracket :
    extract_features "[" = .error "Invalid IPv6 URL" := rfl

/-- Claim C6 (status: confirmed): the risk tier of the verdict is derived
from the final score by the fixed thresholds: "high" iff
`final_score ≥ 0.7`, "medium" iff `0.4 ≤ final_score < 0.7`, "low"
otherwise (so 0.700 is "high", 0.400 is "medium", 0.399 is "low"). -/
theorem risk_tier_thresholds (m : SignalMap) :
    ((score_features m).risk = "high" ↔ 0.7 ≤ (score_features m).score) ∧
    ((score_features m).risk = "medium" ↔
      0.4 ≤ (score_features m).score ∧ (score_features m).score < 0.7) ∧
    ((score_features m).risk = "low" ↔ (score_features m).score < 0.4) := by
  simp only [score_features]
  rw [postVerdict_risk_shape]
  generalize (postVerdict (rulesState m)).score = f
  unfold riskOf
  split_ifs with h1 h2 <;> refine ⟨?_, ?_, ?_⟩ <;> simp_all <;> linarith

/-- Claim C7 (status: confirmed): for every signal map, including an
all-default one, the verdict's score lies in `[0, 1]`. -/
theorem score_in_unit_interval (m : SignalMap) :
    0 ≤ (score_features m).score ∧ (score_features m).score ≤ 1 := by
  simp only [score_features]
  obtain ⟨x, hx⟩ := postVerdict_score_shape (rulesState m)
  rw [hx]
  exact ⟨round3_nonneg (clamp01_nonneg x), round3_le_one (clamp01_le_one x)⟩

/-- Claim C8 (status: confirmed): the reasons sequence of every verdict has
no duplicate entries; `_add_reason` appends a reason only when it is not
already present, so each reason appears once, at its first-trigger
position. -/
theorem reasons_nodup (m : SignalMap) : ((score_features m).reasons).Nodup := by
  simp only [score_features, postVerdict]
  split
  · exact addReason_nodup _ _ (rulesState_nodup m)
  · exact rulesState_nodup m

theorem brandScan_eq_find (host : String) (l : List String) :
    brandScan host l =
      l.find? fun b => pyIn b host && !pyStartsWith host (b ++ ".") := by
  induction l with
  | nil => rfl
  | cons b bs ih =>
    simp only [brandScan, List.find?]
    by_cases h1 : pyIn b host
    · by_cases h2 : pyStartsWith host (b ++ ".")
      · simp [h1, h2, ih]
      · simp [h1, h2]
    · simp [h1, ih]

/-- Claim C3 (status: confirmed): the brand-impersonation rule scans the
brand list in the canonical order `paypal, google, microsoft, bank, visa,
mastercard, apple, facebook, instagram` (the embedding of the Python `set`
literal fixed by the specification), stops at the first brand that is a
substring of the host while the host does not start with `brand + "."`, and
applies the penalty — score +0.40, `credential_theft` +1.0, one
impersonation reason — exactly once; which brand is matched is exactly the
first match of that list order. -/
theorem brand_rule_first_match_canonical (host : String) (st : ScoreState) :
    brandScan host BRAND_KEYWORDS =
      (BRAND_KEYWORDS.find? fun b => pyIn b host && !pyStartsWith host (b ++ ".")) ∧
    brandStep host st =
      (match BRAND_KEYWORDS.find? fun b => pyIn b host && !pyStartsWith host (b ++ ".") with
       | some b =>
         { score := st.score + 0.40
           reasons := addReason st.reasons (brandReason b)
           cats := { st.cats with credential_theft := st.cats.credential_theft + 1.0 } }
       | none => st) := by
  refine ⟨brandScan_eq_find host BRAND_KEYWORDS, ?_⟩
  rw [brandStep, brandScan_eq_find]

/-- Claim C9 (status: confirmed): a "high" verdict always carries at least
one predicted category: when all four normalised accumulators are below 0.5
and the clamped base score is below the 0.65 fallback threshold, the
blended final score stays strictly below 0.7 even after rounding. -/
theorem high_risk_has_category (m : SignalMap) :
    (score_features m).risk = "high" →
    (score_features m).predicted_categories ≠ [] := by
  simp only [score_features]
  generalize rulesState m = st
  intro hr he
  simp only [postVerdict] at hr he
  set base := clamp01 st.score with hbase
  set s1 := round3 (clamp01 (st.cats.credential_theft / 2)) with hs1
  set s2 := round3 (clamp01 (st.cats.card_theft / 2)) with hs2
  set s3 := round3 (clamp01 (st.cats.info_gathering / 2)) with hs3
  set s4 := round3 (clamp01 (st.cats.malware / 2)) with hs4
  split at he
  · simp at he
  · next hcond =>
    rw [List.map_eq_nil_iff] at he
    have hall := List.filter_eq_nil_iff.mp he
    have h1 : s1 < 0.5 := by
      have := hall ("credential_theft", s1) (by simp)
      simpa using this
    have h2 : s2 < 0.5 := by
      have := hall ("card_theft", s2) (by simp)
      simpa using this
    have h3 : s3 < 0.5 := by
      have := hall ("info_gathering", s3) (by simp)
      simpa using this
    have h4 : s4 < 0.5 := by
      have := hall ("malware", s4) (by simp)
      simpa using this
    have hblt : base < 0.65 := by
      by_contra hge
      exact hcond ⟨List.map_eq_nil_iff.mpr he, by linarith⟩
    have hmax : max (max (max s1 s2) s3) s4 < 0.5 := by
      exact max_lt (max_lt (max_lt h1 h2) h3) h4
    have hb : base * 0.65 + (max (max (max s1 s2) s3) s4) * 0.35 < 5975 / 10000 := by
      nlinarith
    have hcl : clamp01 (base * 0.65 + (max (max (max s1 s2) s3) s4) * 0.35) < 5975 / 10000 := by
      unfold clamp01
      apply max_lt (by norm_num)
      exact lt_of_le_of_lt (min_le_left _ _) hb
    have hfin := round3_lt_high hcl
    rw [riskOf, if_neg (by linarith)] at hr
    split at hr
    · exact absurd hr (by decide)
    · exact absurd hr (by decide)

/-- Witness for C9: on `C9map` the verdict is "high" and the predicted
categories are non-empty. -/
theorem high_risk_has_category_witness :
    (score_features C9map).predicted_categories ≠ [] :=
  high_risk_has_category C9map risk_C9

/-! ## Evaluation of the C1 scenario

The entropy of the scenario host and path are pinned down exactly:
`host = "paypal.com.secure-account-update.xyz"` has character frequencies
{3, 4, 2, 1, 3, 4, 2, 1, 1, 3, 3, 1, 2, 1, 2, 1, 1, 1} over 36 characters,
giving entropy `4/3 + (5/3)·log₂ 3 ≈ 3.9749`; `path = "/login"` has six
distinct characters, giving `log₂ 6 = 1 + log₂ 3 ≈ 2.5850`.  The bounds
`1054/665 < log₂ 3 < 485/306` (i.e. `2^1054 < 3^665` and `3^306 < 2^485`)
suffice to determine both values rounded to four decimals. -/

theorem logb23_gt : (1054 / 665 : ℝ) < Real.logb 2 3 := by
  have h : Real.logb 2 ((2:ℝ) ^ (1054:ℕ)) < Real.logb 2 ((3:ℝ) ^ (665:ℕ)) :=
    Real.logb_lt_logb (by norm_num) (by positivity) (by norm_num)
  rw [Real.logb_pow, Real.logb_pow, Real.logb_self_eq_one (by norm_num)] at h
  push_cast at h
  linarith

theorem logb23_lt : Real.logb 2 3 < (485 / 306 : ℝ) := by
  have h : Real.logb 2 ((3:ℝ) ^ (306:ℕ)) < Real.logb 2 ((2:ℝ) ^ (485:ℕ)) :=
    Real.logb_lt_logb (by norm_num) (by positivity) (by norm_num)
  rw [Real.logb_pow, Real.logb_pow, Real.logb_self_eq_one (by norm_num)] at h
  push_cast at h
  linarith

theorem logb_inv36_1 : Real.logb 2 ((1:ℝ)/36) = -(2 + 2 * Real.logb 2 3) := by
  rw [show (1:ℝ)/36 = ((2:ℝ)^(2:ℕ) * 3^(2:ℕ))⁻¹ by norm_num, Real.logb_inv,
      Real.logb_mul (by norm_num) (by norm_num), Real.logb_pow, Real.logb_pow,
      Real.logb_self_eq_one (by norm_num)]
  push_cast
  ring

theorem logb_inv36_2 : Real.logb 2 ((2:ℝ)/36) = -(1 + 2 * Real.logb 2 3) := by
  rw [show (2:ℝ)/36 = ((2:ℝ) * 3^(2:ℕ))⁻¹ by norm_num, Real.logb_inv,
      Real.logb_mul (by norm_num) (by norm_num), Real.logb_pow,
      Real.logb_self_eq_one (by norm_num)]
  push_cast
  ring

theorem logb_inv36_3 : Real.logb 2 ((3:ℝ)/36) = -(2 + Real.logb 2 3) := by
  rw [show (3:ℝ)/36 = ((2:ℝ)^(2:ℕ) * 3)⁻¹ by norm_num, Real.logb_inv,
      Real.logb_mul (by norm_num) (by norm_num), Real.logb_pow,
      Real.logb_self_eq_one (by norm_num)]
  push_cast
  ring

theorem logb_inv36_4 : Real.logb 2 ((4:ℝ)/36) = -(2 * Real.logb 2 3) := by
  rw [show (4:ℝ)/36 = (((3:ℝ))^(2:ℕ))⁻¹ by norm_num, Real.logb_inv, Real.logb_pow]
  push_cast
  ring

set_option maxRecDepth 8000 in
theorem shannon_hostC1 :
    shannon ("paypal.com.secure-account-update.xyz").data =
      4/3 + 5/3 * Real.logb 2 3 := by
  have hc : charCounts ("paypal.com.secure-account-update.xyz").data =
      [('p',3),('a',4),('y',2),('l',1),('.',3),('c',4),('o',2),('m',1),('s',1),
       ('e',3),('u',3),('r',1),('-',2),('n',1),('t',2),('d',1),('x',1),('z',1)] := rfl
  have hlen : (("paypal.com.secure-account-update.xyz").data).length = 36 := rfl
  simp only [shannon, hc, hlen]
  rw [if_neg (by decide : ¬ ("paypal.com.secure-account-update.xyz").data = [])]
  simp only [List.map_cons, List.map_nil, List.sum_cons, List.sum_nil]
  push_cast
  rw [logb_inv36_1, logb_inv36_2, logb_inv36_3, logb_inv36_4]
  ring

theorem shannon_pathC1 :
    shannon ("/login").data = 1 + Real.logb 2 3 := by
  have hc : charCounts ("/login").data =
      [('/',1),('l',1),('o',1),('g',1),('i',1),('n',1)] := rfl
  have hlen : (("/login").data).length = 6 := rfl
  have h6 : Real.logb 2 ((1:ℝ)/6) = -(1 + Real.logb 2 3) := by
    rw [show (1:ℝ)/6 = ((2:ℝ) * 3)⁻¹ by norm_num, Real.logb_inv,
        Real.logb_mul (by norm_num) (by norm_num),
        Real.logb_self_eq_one (by norm_num)]
  simp only [shannon, hc, hlen]
  rw [if_neg (by decide : ¬ ("/login").data = [])]
  simp only [List.map_cons, List.map_nil, List.sum_cons, List.sum_nil]
  push_cast
  rw [h6]
  ring

theorem round4R_host :
    round4R (shannon ("paypal.com.secure-account-update.xyz").data) =
      (39749 / 10000 : ℚ) := by
  have hX1 := logb23_gt
  have hX2 := logb23_lt
  rw [round4R, shannon_hostC1]
  have h : round ((4/3 + 5/3 * Real.logb 2 3) * 10000) = 39749 := by
    rw [round_eq]
    apply Int.floor_eq_iff.mpr
    constructor
    · push_cast
      nlinarith
    · push_cast
      nlinarith
  rw [h]
  norm_num

theorem round4R_path :
    round4R (shannon ("/login").data) = (25850 / 10000 : ℚ) := by
  have hX1 := logb23_gt
  have hX2 := logb23_lt
  rw [round4R, shannon_pathC1]
  have h : round ((1 + Real.logb 2 3) * 10000) = 25850 := by
    rw [round_eq]
    apply Int.floor_eq_iff.mpr
    constructor
    · push_cast
      nlinarith
    · push_cast
      nlinarith
  rw [h]
  norm_num

set_option maxRecDepth 40000 in
theorem extract_C1 : extract_features C1url = .ok C1map := by
  have hbase : extract_features C1url = .ok { C1map with
      host_entropy := round4R (shannon ("paypal.com.secure-account-update.xyz").data),
      path_entropy := round4R (shannon ("/login").data) } := rfl
  rw [hbase, round4R_host, round4R_path]
  rfl

theorem rulesState_C1 : rulesState C1map = c1st := by
  simp only [rulesState]
  rw [applyRule_pos (C1map.suspicious_tld = true) (by decide)]
  rw [applyRule_neg (C1map.has_ip = true) (by decide)]
  rw [applyRule_neg (C1map.url_length > 80) (by decide)]
  rw [applyRule_neg (C1map.special_char_count > 5) (by decide)]
  rw [applyRule_pos (C1map.host_entropy ≠ 0 ∧ C1map.host_entropy > 3.2) (by norm_num [C1map])]
  rw [applyRule_neg (C1map.path_entropy ≠ 0 ∧ C1map.path_entropy > 4.0) (by norm_num [C1map])]
  rw [applyRule_neg (C1map.has_password_input = true) (by decide)]
  rw [applyRule_neg (C1map.has_card_inputs = true) (by decide)]
  rw [applyRule_neg (C1map.external_form_action = true) (by decide)]
  rw [applyRule_pos (kwInter (List.map pyLower C1map.keywords_found)
    ["account", "login", "secure", "verify"] ≠ []) (by decide)]
  rw [applyRule_neg (kwInter (List.map pyLower C1map.keywords_found)
    ["billing", "card", "payment"] ≠ []) (by decide)]
  rw [applyRule_neg (kwInter (List.map pyLower C1map.keywords_found)
    ["claim", "free", "survey"] ≠ []) (by decide)]
  rw [applyRule_neg (kwInter (List.map pyLower C1map.keywords_found)
    ["download", "setup"] ≠ [] ∨
    (pyEndsWith (pyLower C1map.url) ".exe" || pyEndsWith (pyLower C1map.url) ".zip" ||
     pyEndsWith (pyLower C1map.url) ".scr" || pyEndsWith (pyLower C1map.url) ".msi") = true)
    (by decide)]
  rw [brandStep_none (pyLower C1map.host) (by decide)]
  rw [applyRule_neg (C1map.param_count ≥ 5) (by decide)]
  rw [applyRule_neg (C1map.has_double_slash = true) (by decide)]
  rw [applyRule_neg (C1map.redirect_count ≥ 3) (by decide)]
  rw [applyRule_neg (C1map.meta_refresh = true) (by decide)]
  rw [applyRule_neg (C1map.iframe_count ≥ 2) (by decide)]
  rw [applyRule_neg (C1map.external_domain_count ≥ 5) (by decide)]
  rw [applyRule_neg (C1map.external_script_count ≥ 3) (by decide)]
  rw [applyRule_neg (C1map.suspicious_js_keywords ≠ []) (by decide)]
  rw [applyRule_neg (C1map.word_count ≠ 0 ∧ C1map.word_count < 80 ∧
    C1map.has_login_form = true) (by decide)]
  rw [tldBoost_pos C1map.tld (by decide)]
  norm_num [applyRule, addReason, kwInter, joinComma, pyLower, C1map, c1st]
  decide

theorem verdict_C1 : score_features C1map = c1verdict := by
  rw [score_features, rulesState_C1]
  simp only [postVerdict, c1st]
  norm_num [clamp01, round3, round_eq, riskOf, min_def, max_def, addReason, c1verdict]

/-- Claim C1 (status: corrected): counterexample.  On the scenario URL
`"paypal.com.secure-account-update.xyz/login"` the claim's conclusion
fails: the host *does* start with `"paypal."`, so the brand-impersonation
rule does not fire, and the verdict's risk is "medium" (score 0.607), not
"high" as the claim asserts. -/
theorem scenario_C1_counterexample :
    extract_features C1url = .ok C1map ∧ (score_features C1map).risk ≠ "high" := by
  refine ⟨extract_C1, ?_⟩
  rw [verdict_C1]
  decide

/-- Claim C1 as amended: `extract_features` on the scenario URL returns
`suspicious_tld = true` with `tld = "xyz"` and `"login"` among the found
keywords; but the host starts with `"paypal."`, so the brand scan matches
no brand and the brand penalty is not applied; `credential_theft` is still
predicted (keyword rule +1.0 and TLD boost +0.20 give a normalised 0.6 ≥
0.5), and the risk is "medium", not "high". -/
theorem scenario_C1_amended :
    extract_features C1url = .ok C1map ∧
    C1map.suspicious_tld = true ∧ C1map.tld = "xyz" ∧
    "login" ∈ C1map.keywords_found ∧
    pyStartsWith C1map.host "paypal." = true ∧
    brandScan (pyLower C1map.host) BRAND_KEYWORDS = none ∧
    "credential_theft" ∈ (score_features C1map).predicted_categories ∧
    (score_features C1map).risk = "medium" := by
  refine ⟨extract_C1, by decide, by decide, by decide, by decide, by decide, ?_, ?_⟩
  · rw [verdict_C1]
    decide
  · rw [verdict_C1]
    rfl

/-! ## String-containment bridging lemmas -/

theorem subL_singleton (c : Char) (l : List Char) : subL [c] l = l.contains c := by
  induction l with
  | nil => rfl
  | cons h t ih =>
    show (startsWithL [c] (h :: t) || subL [c] t) = (c == h || t.contains c)
    rw [ih]
    by_cases hch : c = h <;> simp [startsWithL, hch]

theorem pyIn_at (s : String) : pyIn "@" s = pyInChar '@' s :=
  subL_singleton '@' s.data

theorem pyIn_at_prepend (t : String) : pyIn "@" ("http://" ++ t) = pyInChar '@' t := by
  rw [pyIn_at]
  show ("http://".data ++ t.data).contains '@' = t.data.contains '@'
  rfl

theorem startsWithL_iff (p l : List Char) : startsWithL p l = true ↔ p <+: l := by
  induction p generalizing l with
  | nil => simp [startsWithL]
  | cons a as ih =>
    cases l with
    | nil => simp [startsWithL]
    | cons b bs =>
      simp only [startsWithL, Bool.and_eq_true, decide_eq_true_eq, ih,
        List.cons_prefix_cons]

theorem subL_eq_true_iff (p l : List Char) : subL p l = true ↔ p <:+: l := by
  induction l with
  | nil => simp [subL, List.isEmpty_iff, List.infix_nil]
  | cons c cs ih =>
    simp only [subL, Bool.or_eq_true, startsWithL_iff, ih, List.infix_cons_iff]

theorem pyIn_decide_eq (pat s : String) :
    pyIn pat s = decide (pat.data <:+: s.data) := by
  by_cases h : pat.data <:+: s.data
  · simp [h, pyIn, subL_eq_true_iff]
  · simp only [pyIn]
    rw [decide_eq_false h]
    by_contra hc
    simp only [Bool.not_eq_false, subL_eq_true_iff] at hc
    exact h hc

theorem parse_url_ok_normalized (s : String) (p : UrlParts) (h : parse_url s = .ok p) :
    p.normalized =
      (if !pyStartsWith (pyStrip s) "http://" && !pyStartsWith (pyStrip s) "https://" then
        "http://" ++ pyStrip s
      else pyStrip s) := by
  unfold parse_url at h
  dsimp only [] at h
  split at h
  · exact absurd h (by simp)
  · cases h
    rfl

/-- Claim C10 (status: confirmed): for every input string on which
`extract_features` returns, the `has_at` field is true exactly when the
whitespace-trimmed raw input contains `@`; prepending `http://` neither
introduces nor removes an `@`. -/
theorem has_at_is_strip_at (s : String) :
    (extract_features s).map SignalMap.has_at =
      (parse_url s).map fun _ => pyInChar '@' (pyStrip s) := by
  unfold extract_features
  cases hp : parse_url s with
  | error e => rfl
  | ok p =>
    simp only [Except.map, Except.ok.injEq]
    show pyIn "@" p.normalized = pyInChar '@' (pyStrip s)
    rw [parse_url_ok_normalized s p hp]
    split
    · rw [pyIn_at_prepend]
    · rw [pyIn_at]

/-- Claim C5 (status: corrected): counterexample.  On the input `"a://b"`
(normalised to `"http://a://b"`), the code's `has_double_slash` is `false`
(no `//` after the *last* `"://"`), while the claim's reading — `//` in the
part after the *first* `"://"` — is `true` (that part is `"a://b"`). -/
theorem double_slash_counterexample :
    ¬ ((extract_features "a://b").map SignalMap.has_double_slash =
       .ok (pyIn "//" (afterFirstMarker "http://a://b"))) := by
  decide

/-- Claim C5 as amended: `has_double_slash` is true iff `//` occurs in the
portion of the normalized URL after the *last* occurrence of `"://"`
(Python `split("://")[-1]`), not the first. -/
theorem double_slash_after_last_marker (s : String) :
    (extract_features s).map SignalMap.has_double_slash =
      (parse_url s).map fun p =>
        decide (("//").data <:+: (lastD (pySplit p.normalized "://")).data) := by
  unfold extract_features
  cases hp : parse_url s with
  | error e => rfl
  | ok p =>
    simp only [Except.map, Except.ok.injEq]
    show pyIn "//" (lastD (pySplit p.normalized "://")) = _
    rw [pyIn_decide_eq]

/-! ## The `parse_qs` dictionary size -/

theorem addPair_fst (acc : List (String × List String)) (p : String × String) :
    (addPair acc p).map Prod.fst =
      if p.1 ∈ acc.map Prod.fst then acc.map Prod.fst
      else acc.map Prod.fst ++ [p.1] := by
  unfold addPair
  split
  · rw [List.map_map]
    apply List.map_congr_left
    intro e _
    by_cases he : e.1 = p.1 <;> simp [he]
  · simp

theorem foldl_addPair_length :
    ∀ (l : List (String × String)) (acc : List (String × List String)),
      ((acc.map Prod.fst).Nodup) →
      (l.foldl addPair acc).length =
        ((acc.map Prod.fst) ++ l.map Prod.fst).toFinset.card := by
  intro l
  induction l with
  | nil =>
    intro acc h
    simp [List.toFinset_card_of_nodup h]
  | cons p t ih =>
    intro acc h
    rw [List.foldl_cons]
    have hkeys := addPair_fst acc p
    by_cases hc : p.1 ∈ acc.map Prod.fst
    · rw [if_pos hc] at hkeys
      have hnd : ((addPair acc p).map Prod.fst).Nodup := hkeys ▸ h
      rw [ih _ hnd, hkeys, List.map_cons, List.toFinset_append, List.toFinset_append,
        List.toFinset_cons, Finset.union_insert,
        Finset.insert_eq_self.mpr (Finset.mem_union_left _ (List.mem_toFinset.mpr hc))]
    · rw [if_neg hc] at hkeys
      have hnd : ((addPair acc p).map Prod.fst).Nodup := by
        rw [hkeys]
        simp [List.nodup_append, h, hc]
      rw [ih _ hnd, hkeys, List.map_cons, List.toFinset_append, List.toFinset_append,
        List.toFinset_append, List.toFinset_cons, List.toFinset_cons, List.toFinset_nil,
        Finset.union_assoc, Finset.insert_union, Finset.empty_union]

theorem pyParseQs_length (qs : String) :
    (pyParseQs qs).length = ((pyParseQsl qs).map Prod.fst).toFinset.card := by
  unfold pyParseQs
  simpa using foldl_addPair_length (pyParseQsl qs) [] (by simp)

/-- Claim C4 (status: corrected): counterexample.  On the input
`"http://h/p?a="` the query string is `"a="`; its one parameter name `"a"`
is present (with an empty value), but `param_count = len(parse_qs(query))`
is 0, because `parse_qs` with `keep_blank_values=False` drops pairs whose
value is empty. -/
theorem param_count_blank_counterexample :
    ¬ ((extract_features "http://h/p?a=").map SignalMap.param_count =
       .ok (claimedParamNames "a=").length) := by
  decide

/-- Claim C4 as amended: `param_count` equals the number of distinct decoded
names among the query parameters that have an `=` and a non-empty value;
parameters with an empty value, and bare names without `=`, are not
counted. -/
theorem param_count_distinct_nonblank (s : String) :
    (extract_features s).map SignalMap.param_count =
      (parse_url s).map fun p => ((pyParseQsl p.query).map Prod.fst).toFinset.card := by
  unfold extract_features
  cases hp : parse_url s with
  | error e => rfl
  | ok p =>
    simp only [Except.map, Except.ok.injEq]
    show (pyParseQs p.query).length = _
    exact pyParseQs_length p.query

end Phish
